import Mathlib

/-!
Verification of the volume-backend selection, resolution and fade-scheduling
subsystem of the spotifycli repository, shallowly embedded from
`src/spfy/mixins/asynch/player.py` (the async `PlayerMixin`) and
`src/spfy/wrapper.py` (the sync `Spotify` wrapper).

The embedded state of the host is an `Env`: the platform strings probed by the
two modules, the configuration strings fed to the backend constructors, and one
boolean per OS-dependent backend recording whether its underlying library
construction succeeds (the constructors themselves live in the `spfy.volume`
module, which is not part of the sources; only their success or failure is
observable here).

Volume reads and writes are modelled by explicit state (`VolState`) and an
event trace (`Event`), so that ordering and absence of writes are provable.
-/

namespace Spfy

/-- The `VolumeBackend` enumeration from `spfy.constants` (members
`APPLESCRIPT`, `LINUX`, `ALSA`, `SPOTIFY` as used throughout the sources). -/
inductive VolumeBackend
  | applescript
  | linux
  | alsa
  | spotify
deriving DecidableEq, Repr

/-- Host and session configuration visible to the two modules.
`platform` is `sys.platform` (async player, compared to "darwin"/"linux"),
`sysname` is `os.uname().sysname` (sync wrapper, compared to "Darwin"/"Linux").
`appleOk`/`linuxOk`/`alsaOk` record whether the corresponding volume-control
class constructor (in the `spfy.volume` module, outside the sources) returns
normally or raises. `sessionDevice` is `self.device` of the async mixin;
`deviceId` is `self._device.id` of the sync wrapper, with `""` standing for a
falsy id. -/
structure Env where
  platform : String
  sysname : String
  speaker : String
  audioDevice : String
  alsaMixer : String
  alsaDevice : String
  sessionDevice : String
  deviceId : String
  appleOk : Bool
  linuxOk : Bool
  alsaOk : Bool
deriving DecidableEq, Repr

/-- A constructed volume-control instance, one constructor per concrete class
of the `spfy.volume` module, carrying the configuration its Python constructor
receives. -/
inductive Backend
  | applescriptCtl (speaker : String)
  | linuxCtl (mixer : String) (spotifyDevice : String) (alsaDevice : String)
  | alsaCtl (mixer : String) (alsaDevice : String)
  | spotifyCtl (device : String)
deriving DecidableEq, Repr

/-- Errors surfaced by the embedded operations. `backendUnavailable` is the
`ValueError("Backend ... is not available on this system")` of
`PlayerMixin.backend`; `constructionFailure` is an exception escaping a backend
class constructor; `invalidVolumeValue` is the rejection of an out-of-range
volume by a backend setter; `noneFault` is the `AttributeError`/`TypeError`
Python would raise when a `None` backend is used. -/
inductive Err
  | backendUnavailable
  | invalidVolumeValue
  | constructionFailure
  | noneFault
deriving DecidableEq, Repr

/-- Modelled from the spec: construction of `ApplescriptVolumeControl`
(`spfy.volume`, not under the sources) "may raise (missing library, wrong OS,
missing hardware)"; the outcome is abstracted by the `ok` flag. -/
def rawApplescriptCtor (speaker : String) (ok : Bool) : Except Err Backend :=
  if ok then .ok (.applescriptCtl speaker) else .error .constructionFailure

/-- Modelled from the spec: construction of `LinuxVolumeControl` /
`LinuxVolumeControlAsync` (`spfy.volume`, not under the sources) may raise;
abstracted by the `ok` flag. -/
def rawLinuxCtor (mixer spotifyDevice alsaDevice : String) (ok : Bool) :
    Except Err Backend :=
  if ok then .ok (.linuxCtl mixer spotifyDevice alsaDevice)
  else .error .constructionFailure

/-- Modelled from the spec: construction of `AlsaVolumeControl`
(`spfy.volume`, not under the sources) may raise; abstracted by the `ok`
flag. -/
def rawAlsaCtor (mixer alsaDevice : String) (ok : Bool) : Except Err Backend :=
  if ok then .ok (.alsaCtl mixer alsaDevice) else .error .constructionFailure

/-- `PlayerMixin._applescript_volume_control` (player.py:52-62): inside a
`try`, return `None` unless `sys.platform == "darwin"`, else construct; a bare
`except` turns any exception into `None`. -/
def asyncApplescriptCtor (env : Env) : Option Backend :=
  match
    (if env.platform ≠ "darwin" then Except.ok none
     else (rawApplescriptCtor env.speaker env.appleOk).map some) with
  | .ok r => r
  | .error _ => none

/-- `PlayerMixin._linux_volume_control` (player.py:64-79): inside a `try`,
return `None` unless `sys.platform == "linux"`, else construct
`LinuxVolumeControlAsync(self, self.alsa_mixer, spotify_device=self.device,
alsa_device=self.alsa_device)`; a bare `except` yields `None`. -/
def asyncLinuxCtor (env : Env) : Option Backend :=
  match
    (if env.platform ≠ "linux" then Except.ok none
     else (rawLinuxCtor env.alsaMixer env.sessionDevice env.alsaDevice
        env.linuxOk).map some) with
  | .ok r => r
  | .error _ => none

/-- `PlayerMixin._alsa_volume_control` (player.py:81-91): inside a `try`,
return `None` unless `sys.platform == "linux"`, else construct
`AlsaVolumeControl(self.alsa_mixer, device=self.alsa_device)`; a bare
`except` yields `None`. -/
def asyncAlsaCtor (env : Env) : Option Backend :=
  match
    (if env.platform ≠ "linux" then Except.ok none
     else (rawAlsaCtor env.alsaMixer env.alsaDevice env.alsaOk).map some) with
  | .ok r => r
  | .error _ => none

/-- `PlayerMixin._spotify_volume_control` (player.py:93-95): always constructs
`SpotifyVolumeControlAsync(self, device=self.device)`; per the spec the remote
backend has no OS dependency and is always constructible. -/
def asyncSpotifyCtor (env : Env) : Option Backend :=
  some (.spotifyCtl env.sessionDevice)

/-- The memoized backend map `PlayerMixin._backends` (player.py:41-50), as a
function from kind to the cached construction outcome. -/
def backendCtor (env : Env) : VolumeBackend → Option Backend
  | .applescript => asyncApplescriptCtor env
  | .linux => asyncLinuxCtor env
  | .alsa => asyncAlsaCtor env
  | .spotify => asyncSpotifyCtor env

/-- The insertion order of the `OrderedDict` in `PlayerMixin._backends`
(player.py:43-50): APPLESCRIPT, LINUX, ALSA, SPOTIFY. -/
def asyncPriority : List VolumeBackend :=
  [.applescript, .linux, .alsa, .spotify]

/-- `PlayerMixin._optimal_backend` (player.py:37-39):
`first(self._backends.values())`, the first truthy (non-`None`) value in
insertion order, `None` if there is none. -/
def optimalBackend (env : Env) : Option Backend :=
  asyncPriority.findSome? (backendCtor env)

/-- The kind of the optimal backend: the first kind in insertion order whose
cached construction is non-`None`. -/
def optimalKind (env : Env) : Option VolumeBackend :=
  asyncPriority.find? (fun k => (backendCtor env k).isSome)

/-- The value `PlayerMixin.backend` returns, keeping instance identity
observable: either the memoized instance for a kind, or the throwaway
`SpotifyVolumeControlAsync(self, device=device)` built for a non-default
device. -/
inductive Resolved
  | memoized (k : VolumeBackend)
  | freshSpotify (device : String)
deriving DecidableEq, Repr

/-- The class of the resolved instance: a `memoized` instance has its kind, a
`freshSpotify` instance is a `SpotifyVolumeControlAsync`. -/
def Resolved.kind : Resolved → VolumeBackend
  | .memoized k => k
  | .freshSpotify _ => .spotify

/-- The device a resolved remote (Spotify) instance is bound to: the session
device for the memoized instances, the requested device for a throwaway
instance. -/
def Resolved.boundDevice (env : Env) : Resolved → String
  | .memoized _ => env.sessionDevice
  | .freshSpotify d => d

/-- Python truthiness of the optional `device` argument: `None` and the empty
string are falsy. -/
def deviceTruthy : Option String → Bool
  | none => false
  | some d => d ≠ ""

/-- `PlayerMixin.backend` (player.py:97-113). With a falsy `backend` argument
it returns `self._optimal_backend` unchanged (possibly `None`). With an
explicit kind it looks up the memoized map and raises
`ValueError("Backend ... is not available on this system")` on a `None` entry;
then, if the instance is a `SpotifyVolumeControlAsync` and `device` is truthy
and differs from `self.device`, it returns a fresh
`SpotifyVolumeControlAsync(self, device=device)` instead. -/
def resolveBackend (env : Env) (kind : Option VolumeBackend)
    (device : Option String) : Except Err (Option Resolved) :=
  match kind with
  | none => .ok ((optimalKind env).map .memoized)
  | some k =>
    match backendCtor env k with
    | none => .error .backendUnavailable
    | some _ =>
      if k = .spotify ∧ deviceTruthy device ∧ device ≠ some env.sessionDevice
      then .ok (some (.freshSpotify (device.getD "")))
      else .ok (some (.memoized k))

/-- Mixer and stream volumes before an operation: the remote (Spotify) stream
volume per device, and one hardware volume per local backend kind. -/
structure VolState where
  spotifyVol : String → Int
  localVol : VolumeBackend → Int

/-- An observable volume action. `spotifyWrite` is a remote stream-volume
write to a device; `localWrite` is a hardware mixer write through a local
backend; `rampStep` is the `i`-th delayed write of a backend's own `fade`
ramp. -/
inductive Event
  | spotifyWrite (device : String) (v : Int)
  | localWrite (k : VolumeBackend) (v : Int)
  | rampStep (k : VolumeBackend) (i : Nat) (v : Int)
deriving DecidableEq, Repr

/-- Modelled from the spec: `SpotifyVolumeControlAsync.set_volume`
(`spfy.volume`, not under the sources). Per §4.1/§7 an explicit out-of-range
value with `force` unset "must be rejected rather than silently clamped"
(`InvalidVolumeValue`); per §6 `changeVolume` returns the written
`VolumeLevel`, so a successful write returns the value written. The `fade`
flag of `set_volume` is not modelled: every call embedded here leaves it at
its `False` default. -/
def spotifySetVolume (device : String) (v : Int) :
    List Event × Except Err Int :=
  if 0 ≤ v ∧ v ≤ 100 then ([.spotifyWrite device v], .ok v)
  else ([], .error .invalidVolumeValue)

/-- Modelled from the spec: the `volume` property setter of the local
volume-control classes (`spfy.volume`, not under the sources). Per §7 an
out-of-range explicit value is rejected with `InvalidVolumeValue` rather than
silently clamped or written. -/
def localSetVolume (k : VolumeBackend) (v : Int) :
    List Event × Except Err Unit :=
  if 0 ≤ v ∧ v ≤ 100 then ([.localWrite k v], .ok ())
  else ([], .error .invalidVolumeValue)

/-- `PlayerMixin.change_volume` (player.py:115-135). Resolves the backend; for
a `SpotifyVolumeControlAsync` it takes `to` if given, else the awaited current
stream volume, and returns `await set_volume(volume + by)`; otherwise it takes
`to` if given, else the local backend's current volume, assigns
`volume_backend.volume = volume + by` and returns that sum. The returned trace
lists the writes performed; an error carries the writes performed before it
was raised. -/
def change_volume (env : Env) (st : VolState) (byAmt : Int) (toVal : Option Int)
    (kind : Option VolumeBackend) (device : Option String) :
    List Event × Except Err Int :=
  match resolveBackend env kind device with
  | .error e => ([], .error e)
  | .ok none => ([], .error .noneFault)
  | .ok (some r) =>
    if r.kind = .spotify then
      let volume := match toVal with
        | some t => t
        | none => st.spotifyVol (r.boundDevice env)
      spotifySetVolume (r.boundDevice env) (volume + byAmt)
    else
      let volume := match toVal with
        | some t => t
        | none => st.localVol r.kind
      let newVolume := volume + byAmt
      match localSetVolume r.kind newVolume with
      | (evs, .ok _) => (evs, .ok newVolume)
      | (evs, .error e) => (evs, .error e)

/-- Modelled from the spec: the shared ramp algorithm of the backend `fade`
methods (`spfy.volume`, not under the sources), §4.3: with
`n = ceil(|limit - start| / step)` and direction `1` when `limit >= start`
else `-1`, the `i`-th delayed write (for `i = 1..n`) is
`start + direction*step*i` — with the final step snapping exactly to `limit`
— clamped to `[0,100]` unless `force` is set, in which case the raw value is
written through (§8: with `force:false` no write ever exceeds `100`; with
`force:true` the final step does write an out-of-range `limit`). -/
def rampValues (limit start step : Int) (force : Bool) : List Int :=
  let stepN := step.natAbs
  let n := ((limit - start).natAbs + (stepN - 1)) / stepN
  let dir : Int := if start ≤ limit then 1 else -1
  (List.range n).map (fun i =>
    let v := if i + 1 = n then limit else start + dir * step * ((i : Int) + 1)
    if force then v else min 100 (max 0 v))

/-- The delayed ramp writes of one backend `fade` call as trace events, in
step order. -/
def rampEvents (k : VolumeBackend) (limit start step : Int) (force : Bool) :
    List Event :=
  (rampValues limit start step force).enum.map
    (fun p => Event.rampStep k p.1 p.2)

/-- How the ramp of `PlayerMixin.fade` is executed: awaited on the caller's
loop (`blocking=True`), detached as `loop.create_task` (`blocking=False`), or
offloaded with `loop.run_in_executor`. -/
inductive FadeMode
  | awaited
  | detachedTask
  | executor
deriving DecidableEq, Repr

/-- The visible outcome of `PlayerMixin.fade`: whether a task handle was
returned (the function otherwise returns `None`) and the execution mode of
the ramp. -/
structure FadeOut where
  handle : Bool
  mode : FadeMode
deriving DecidableEq, Repr

/-- `PlayerMixin.fade` (player.py:151-188). Resolves the backend; if the
resolved instance is not a `SpotifyVolumeControlAsync`, first awaits
`change_volume(to=spotify_volume, backend=SPOTIFY, device=device)` (the remote
pin); then awaits `change_volume(to=start, backend=backend, device=device)`
(the baseline); then, if the instance is a `SpotifyVolumeControlAsync` or
`LinuxVolumeControlAsync`, either awaits the backend's `fade` coroutine
(`blocking=True`, returning `None`) or returns `loop.create_task` of it
(`blocking=False`); otherwise it submits the blocking `fade` to
`loop.run_in_executor` and returns `None`. The trace lists the writes of the
whole invocation in temporal order, the scheduled ramp writes last. -/
def fade (env : Env) (st : VolState) (limit start step seconds : Int)
    (force : Bool) (kind : Option VolumeBackend) (spotifyVolume : Int)
    (device : Option String) (blocking : Bool) :
    List Event × Except Err FadeOut :=
  match resolveBackend env kind device with
  | .error e => ([], .error e)
  | .ok none => ([], .error .noneFault)
  | .ok (some r) =>
    let pin : List Event × Except Err Int :=
      if r.kind = .spotify then ([], .ok 0)
      else change_volume env st 0 (some spotifyVolume) (some .spotify) device
    match pin with
    | (evs₁, .error e) => (evs₁, .error e)
    | (evs₁, .ok _) =>
      match change_volume env st 0 (some start) kind device with
      | (evs₂, .error e) => (evs₁ ++ evs₂, .error e)
      | (evs₂, .ok _) =>
        let ramp := rampEvents r.kind limit start step force
        if r.kind = .spotify ∨ r.kind = .linux then
          if blocking then (evs₁ ++ evs₂ ++ ramp, .ok ⟨false, .awaited⟩)
          else (evs₁ ++ evs₂ ++ ramp, .ok ⟨true, .detachedTask⟩)
        else (evs₁ ++ evs₂ ++ ramp, .ok ⟨false, .executor⟩)

/-- The unbounded retry loop of `PlayerMixin.play_recommended_genre`
(player.py:216-218): `playlist = self.genre_playlist(genre, popularity)`
followed by `while not playlist: playlist = self.genre_playlist(...)`, for a
fixed genre/popularity pair. `catalog n` is the outcome of the `n`-th call to
the collaborator (`none` for a falsy/absent playlist); the extra fuel argument
makes the loop a total function: `none` means the loop has not terminated
within `fuel` calls. -/
def genreRetryLoop (catalog : Nat → Option String) :
    Nat → Nat → Option String
  | _, 0 => none
  | i, fuel + 1 =>
    match catalog i with
    | some p => some p
    | none => genreRetryLoop catalog (i + 1) fuel

/-- Mixer state of the sync wrapper: one volume per concrete control
(`_alsa_volume_control`, `_applescript_volume_control`,
`_spotify_volume_control`). -/
structure WState where
  alsaVol : Int
  appleVol : Int
  spotifyVol : Int
deriving DecidableEq, Repr

/-- `Spotify.change_volume` (wrapper.py:64-78). The assertion admits every
`VolumeBackend` member (or member value); `volume` starts as `None`; the
`if/elif` chain handles only ALSA, APPLESCRIPT and SPOTIFY, reading, adding
`value` and writing back; the final `return volume` returns `None` when no
branch matched. `none` as overall result is a failed assertion
(`AssertionError`). -/
def wrapperChangeVolume (st : WState) (value : Int)
    (backend : VolumeBackend) : Option (WState × Option Int) :=
  if backend ∈ [VolumeBackend.applescript, .linux, .alsa, .spotify] then
    some
      (if backend = .alsa then
        let v := st.alsaVol + value
        ({ st with alsaVol := v }, some v)
      else if backend = .applescript then
        let v := st.appleVol + value
        ({ st with appleVol := v }, some v)
      else if backend = .spotify then
        let v := st.spotifyVol + value
        ({ st with spotifyVol := v }, some v)
      else (st, none))
  else none

/-- `Spotify._applescript_volume_control` (wrapper.py:39-44): returns `None`
unless `os.uname().sysname == 'Darwin'`, else constructs
`ApplescriptVolumeControl(self.audio_device)` with no exception handler: a
constructor exception propagates. -/
def wrapperApplescriptCtor (env : Env) : Except Err (Option Backend) :=
  if env.sysname ≠ "Darwin" then .ok none
  else (rawApplescriptCtor env.audioDevice env.appleOk).map some

/-- `Spotify._linux_volume_control` (wrapper.py:46-51): returns `None` unless
`os.uname().sysname == 'Linux'`, else constructs `LinuxVolumeControl(self,
self.alsa_mixer, spotify_device=self._device, alsa_device=self.alsa_device)`
with no exception handler: a constructor exception propagates. -/
def wrapperLinuxCtor (env : Env) : Except Err (Option Backend) :=
  if env.sysname ≠ "Linux" then .ok none
  else (rawLinuxCtor env.alsaMixer env.deviceId env.alsaDevice
    env.linuxOk).map some

/-- `Spotify._alsa_volume_control` (wrapper.py:53-58): returns `None` unless
`os.uname().sysname == 'Linux'`, else constructs
`AlsaVolumeControl(self.alsa_mixer, device=self.alsa_device)` with no
exception handler: a constructor exception propagates. -/
def wrapperAlsaCtor (env : Env) : Except Err (Option Backend) :=
  if env.sysname ≠ "Linux" then .ok none
  else (rawAlsaCtor env.alsaMixer env.alsaDevice env.alsaOk).map some

/-- The `device_id` argument `Spotify.play` passes to `start_playback`
(wrapper.py:103): `self._device.id or device_id` — the session-resolved
device id when truthy, else the caller-supplied `device_id`. `""` stands for
a falsy session id. -/
def wrapperPlayStartDevice (env : Env) (deviceId : Option String) :
    Option String :=
  if env.deviceId ≠ "" then some env.deviceId else deviceId

/-- The step index recorded by a ramp event, `none` for the pin and baseline
writes. -/
def Event.rampIdx : Event → Option Nat
  | .rampStep _ i _ => some i
  | _ => none

/-- A Linux host whose ALSA and mixer libraries initialize normally. -/
def envLinuxHost : Env :=
  { platform := "linux", sysname := "Linux", speaker := "spk",
    audioDevice := "aud", alsaMixer := "Master", alsaDevice := "hw:0",
    sessionDevice := "deviceA", deviceId := "id1",
    appleOk := false, linuxOk := true, alsaOk := true }

/-- A host that is neither Darwin nor Linux: every OS-dependent backend is
unsupported. -/
def envOtherHost : Env :=
  { platform := "win32", sysname := "Windows", speaker := "spk",
    audioDevice := "aud", alsaMixer := "Master", alsaDevice := "hw:0",
    sessionDevice := "deviceA", deviceId := "",
    appleOk := false, linuxOk := false, alsaOk := false }

/-- A Linux host on which the `LinuxVolumeControl` constructor raises. -/
def envLinuxCtorFail : Env :=
  { platform := "linux", sysname := "Linux", speaker := "spk",
    audioDevice := "aud", alsaMixer := "Master", alsaDevice := "hw:0",
    sessionDevice := "deviceA", deviceId := "id1",
    appleOk := false, linuxOk := false, alsaOk := true }

/-- A concrete initial volume state: every stream volume 40, every mixer
volume 30. -/
def stDefault : VolState := ⟨fun _ => 40, fun _ => 30⟩

/-! Helper lemmas shared by the claim theorems. -/

/-- `List.findSome?` returns the image of the first element with a `some`
image, and every earlier element maps to `none`. -/
theorem findSome_split {α β : Type} (f : α → Option β) :
    ∀ (l : List α) (a : α), a ∈ l → (f a).isSome →
      ∃ l₁ b l₂, l = l₁ ++ b :: l₂ ∧ (∀ x ∈ l₁, f x = none) ∧
        (f b).isSome ∧ l.findSome? f = f b := by
  intro l
  induction l with
  | nil => intro a ha _; exact absurd ha (List.not_mem_nil a)
  | cons x xs ih =>
    intro a ha hsome
    match hx : f x with
    | some v =>
      exact ⟨[], x, xs, rfl, by simp, by simp [hx],
        by simp [List.findSome?_cons, hx]⟩
    | none =>
      have hax : a ≠ x := by
        intro h; rw [h, hx] at hsome; simp at hsome
      have hmem : a ∈ xs := by
        rcases List.mem_cons.mp ha with h | h
        · exact absurd h hax
        · exact h
      obtain ⟨l₁, b, l₂, heq, hnone, hbsome, hfind⟩ := ih a hmem hsome
      refine ⟨x :: l₁, b, l₂, by simp [heq], ?_, hbsome, ?_⟩
      · intro y hy
        rcases List.mem_cons.mp hy with h | h
        · rw [h, hx]
        · exact hnone y h
      · rw [List.findSome?_cons, hx]; exact hfind

/-- Resolving the Spotify kind always succeeds and yields an instance of the
remote class (memoized or throwaway). -/
theorem resolve_spotify_ok (env : Env) (device : Option String) :
    ∃ rp : Resolved, resolveBackend env (some .spotify) device =
      .ok (some rp) ∧ rp.kind = .spotify := by
  by_cases h : VolumeBackend.spotify = VolumeBackend.spotify ∧
      deviceTruthy device = true ∧ device ≠ some env.sessionDevice
  · exact ⟨.freshSpotify (device.getD ""),
      by simp [resolveBackend, backendCtor, asyncSpotifyCtor, h], rfl⟩
  · refine ⟨.memoized .spotify, ?_, rfl⟩
    simp only [resolveBackend, backendCtor, asyncSpotifyCtor]
    rw [if_neg (fun hc => h ⟨rfl, hc.2⟩)]

/-- The device the remote pin write of `fade` targets: the device of the
instance that resolving the Spotify kind with the given `device` argument
yields. -/
def pinDevice (env : Env) (device : Option String) : String :=
  match resolveBackend env (some .spotify) device with
  | .ok (some rp) => rp.boundDevice env
  | _ => ""

/-- An explicit in-range `to=` write through the remote backend performs
exactly one stream write and returns the written value. -/
theorem change_volume_spotify_to (env : Env) (st : VolState)
    (device : Option String) (v : Int) (h0 : 0 ≤ v) (h1 : v ≤ 100) :
    change_volume env st 0 (some v) (some .spotify) device =
      ([.spotifyWrite (pinDevice env device) v], .ok v) := by
  obtain ⟨rp, hrp, hk⟩ := resolve_spotify_ok env device
  have hd : pinDevice env device = rp.boundDevice env := by
    simp [pinDevice, hrp]
  rw [hd]
  simp [change_volume, hrp, hk, spotifySetVolume, h0, h1]

/-- An explicit in-range `to=` write through a resolved local backend performs
exactly one local write and returns the written value. -/
theorem change_volume_local_to (env : Env) (st : VolState)
    (kind : Option VolumeBackend) (device : Option String) (r : Resolved)
    (v : Int) (hres : resolveBackend env kind device = .ok (some r))
    (hk : r.kind ≠ .spotify) (h0 : 0 ≤ v) (h1 : v ≤ 100) :
    change_volume env st 0 (some v) kind device =
      ([.localWrite r.kind v], .ok v) := by
  simp [change_volume, hres, hk, localSetVolume, h0, h1]

/-- The ramp part of a fade trace carries exactly the step indices
`0, 1, ..., n-1` in order. -/
theorem rampEvents_filterMap_idx (k : VolumeBackend)
    (limit start step : Int) (force : Bool) :
    (rampEvents k limit start step force).filterMap Event.rampIdx =
      List.range (rampValues limit start step force).length := by
  rw [rampEvents, List.filterMap_map]
  have h : (Event.rampIdx ∘ fun p : Nat × Int => Event.rampStep k p.1 p.2) =
      (some ∘ Prod.fst) := rfl
  rw [h, List.filterMap_eq_map, List.enum_map_fst]

/-- Full reduction of `fade` when the resolved instance is the remote
backend: no pin, one baseline stream write, then the ramp; the ramp is
dispatched on the event loop, awaited or detached by `blocking`. -/
theorem fade_eq_of_spotify (env : Env) (st : VolState)
    (limit start step seconds : Int) (force : Bool)
    (kind : Option VolumeBackend) (spotifyVolume : Int)
    (device : Option String) (blocking : Bool) (r : Resolved)
    (hres : resolveBackend env kind device = .ok (some r))
    (hk : r.kind = .spotify) (hs0 : 0 ≤ start) (hs1 : start ≤ 100) :
    fade env st limit start step seconds force kind spotifyVolume device
        blocking =
      (Event.spotifyWrite (r.boundDevice env) start ::
         rampEvents .spotify limit start step force,
       .ok (if blocking then ⟨false, .awaited⟩ else ⟨true, .detachedTask⟩)) := by
  cases blocking <;>
    simp [fade, hres, hk, change_volume, spotifySetVolume, hs0, hs1]

/-- Full reduction of `fade` when the resolved instance is a local backend:
remote pin write, baseline local write, then the ramp; the ramp is detached
or awaited on the loop for the composite Linux backend and offloaded to the
executor for the blocking backends. -/
theorem fade_eq_of_local (env : Env) (st : VolState)
    (limit start step seconds : Int) (force : Bool)
    (kind : Option VolumeBackend) (spotifyVolume : Int)
    (device : Option String) (blocking : Bool) (r : Resolved)
    (hres : resolveBackend env kind device = .ok (some r))
    (hk : r.kind ≠ .spotify) (hs0 : 0 ≤ start) (hs1 : start ≤ 100)
    (hv0 : 0 ≤ spotifyVolume) (hv1 : spotifyVolume ≤ 100) :
    fade env st limit start step seconds force kind spotifyVolume device
        blocking =
      (Event.spotifyWrite (pinDevice env device) spotifyVolume ::
         Event.localWrite r.kind start ::
         rampEvents r.kind limit start step force,
       .ok (if r.kind = .linux then
              (if blocking then ⟨false, .awaited⟩ else ⟨true, .detachedTask⟩)
            else ⟨false, .executor⟩)) := by
  have hpin := change_volume_spotify_to env st device spotifyVolume hv0 hv1
  have hbase := change_volume_local_to env st kind device r start hres hk
    hs0 hs1
  by_cases hl : r.kind = .linux <;> cases blocking <;>
    simp [fade, hres, hk, hl, hpin, hbase]

/-! The claim theorems. -/

/-- C1: on every host, `PlayerMixin._optimal_backend` (the default backend)
is the value of the first kind in the fixed priority order APPLESCRIPT,
LINUX, ALSA, SPOTIFY whose construction did not fail: the priority list
splits into a prefix of kinds reported absent followed by the selected kind,
which is present; the selection is never absent, and the remote (Spotify)
backend is always constructed, so it is the guaranteed fallback. -/
theorem optimal_backend_first_available (env : Env) :
    (∃ l₁ k l₂, asyncPriority = l₁ ++ k :: l₂ ∧
      (∀ x ∈ l₁, backendCtor env x = none) ∧
      (backendCtor env k).isSome ∧
      optimalBackend env = backendCtor env k) ∧
    (optimalBackend env).isSome ∧
    backendCtor env .spotify = some (.spotifyCtl env.sessionDevice) := by
  obtain ⟨l₁, b, l₂, heq, hnone, hbsome, hfind⟩ :=
    findSome_split (backendCtor env) asyncPriority .spotify
      (by simp [asyncPriority]) (by simp [backendCtor, asyncSpotifyCtor])
  have hopt : optimalBackend env = backendCtor env b := hfind
  refine ⟨⟨l₁, b, l₂, heq, hnone, hbsome, hopt⟩, ?_, rfl⟩
  rw [hopt]
  exact hbsome

/-- C2: naming a backend kind whose construction failed, or that does not
exist on this platform, makes `PlayerMixin.backend` raise the
backend-unavailable `ValueError` — not a generic fault, and with no silent
fallback to another backend — and a `change_volume` call through that
resolution performs no volume write (empty trace) and surfaces the same
error. -/
theorem change_volume_absent_backend_rejects (env : Env) (st : VolState)
    (byAmt : Int) (toVal : Option Int) (device : Option String)
    (k : VolumeBackend) (h : backendCtor env k = none) :
    resolveBackend env (some k) device = .error .backendUnavailable ∧
    change_volume env st byAmt toVal (some k) device =
      ([], .error .backendUnavailable) := by
  have h1 : resolveBackend env (some k) device =
      .error .backendUnavailable := by
    simp [resolveBackend, h]
  exact ⟨h1, by simp [change_volume, h1]⟩

/-- C2 witness: on a host that is neither macOS nor Linux, naming the LINUX
backend raises backend-unavailable and writes nothing. -/
theorem change_volume_absent_backend_rejects_witness :
    resolveBackend envOtherHost (some .linux) none =
      .error .backendUnavailable ∧
    change_volume envOtherHost stDefault 1 none (some .linux) none =
      ([], .error .backendUnavailable) :=
  change_volume_absent_backend_rejects envOtherHost stDefault 1 none none
    .linux rfl

/-- C3: within one `fade` invocation on a backend that is not the remote one,
the trace is exactly: the remote stream pinned to the reference level
`spotify_volume`, then the baseline set-to-start write, then the scheduled
delayed ramp steps; when the resolved backend is the remote one the baseline
write comes first and no pin write occurs; and the ramp step indices appear
in strictly increasing order. -/
theorem fade_pin_baseline_ramp_order (env : Env) (st : VolState)
    (limit start step seconds : Int) (force : Bool)
    (kind : Option VolumeBackend) (spotifyVolume : Int)
    (device : Option String) (blocking : Bool) (r : Resolved)
    (hres : resolveBackend env kind device = .ok (some r))
    (hs0 : 0 ≤ start) (hs1 : start ≤ 100)
    (hv0 : 0 ≤ spotifyVolume) (hv1 : spotifyVolume ≤ 100) :
    (r.kind ≠ .spotify →
      (fade env st limit start step seconds force kind spotifyVolume device
          blocking).1 =
        Event.spotifyWrite (pinDevice env device) spotifyVolume ::
          Event.localWrite r.kind start ::
          rampEvents r.kind limit start step force) ∧
    (r.kind = .spotify →
      (fade env st limit start step seconds force kind spotifyVolume device
          blocking).1 =
        Event.spotifyWrite (r.boundDevice env) start ::
          rampEvents .spotify limit start step force) ∧
    ((fade env st limit start step seconds force kind spotifyVolume device
        blocking).1.filterMap Event.rampIdx).Pairwise (· < ·) := by
  by_cases hk : r.kind = .spotify
  · have hf := fade_eq_of_spotify env st limit start step seconds force kind
      spotifyVolume device blocking r hres hk hs0 hs1
    refine ⟨fun h => absurd hk h, fun _ => by rw [hf], ?_⟩
    rw [hf]
    simp only [List.filterMap_cons, Event.rampIdx, rampEvents_filterMap_idx]
    exact List.pairwise_lt_range _
  · have hf := fade_eq_of_local env st limit start step seconds force kind
      spotifyVolume device blocking r hres hk hs0 hs1 hv0 hv1
    refine ⟨fun _ => by rw [hf], fun h => absurd h hk, ?_⟩
    rw [hf]
    simp only [List.filterMap_cons, Event.rampIdx, rampEvents_filterMap_idx]
    exact List.pairwise_lt_range _

/-- C3 witness: fading the ALSA backend on a Linux host first pins the remote
stream of the session device to 100, then writes the local baseline 0, then
schedules the ramp steps. -/
theorem fade_pin_baseline_ramp_order_witness :
    (fade envLinuxHost stDefault 10 0 5 10 false (some .alsa) 100 none
        false).1 =
      Event.spotifyWrite (pinDevice envLinuxHost none) 100 ::
        Event.localWrite VolumeBackend.alsa 0 ::
        rampEvents .alsa 10 0 5 false :=
  (fade_pin_baseline_ramp_order envLinuxHost stDefault 10 0 5 10 false
      (some .alsa) 100 none false (.memoized .alsa) rfl (by decide)
      (by decide) (by decide) (by decide)).1 (by decide)

/-- C4: `fade` returns a detached task handle exactly when the resolved
backend is non-blocking (the remote backend or the composite Linux backend)
and `blocking` is false; with `blocking` true on such a backend it awaits
the ramp and returns no handle; on a blocking-primitive backend the ramp is
offloaded to the worker executor and no handle is ever returned. -/
theorem fade_task_dispatch (env : Env) (st : VolState)
    (limit start step seconds : Int) (force : Bool)
    (kind : Option VolumeBackend) (spotifyVolume : Int)
    (device : Option String) (blocking : Bool) (r : Resolved)
    (hres : resolveBackend env kind device = .ok (some r))
    (hs0 : 0 ≤ start) (hs1 : start ≤ 100)
    (hv0 : 0 ≤ spotifyVolume) (hv1 : spotifyVolume ≤ 100) :
    ((fade env st limit start step seconds force kind spotifyVolume device
        blocking).2 = .ok ⟨true, .detachedTask⟩ ↔
      ((r.kind = .spotify ∨ r.kind = .linux) ∧ blocking = false)) ∧
    ((r.kind = .spotify ∨ r.kind = .linux) → blocking = true →
      (fade env st limit start step seconds force kind spotifyVolume device
        blocking).2 = .ok ⟨false, .awaited⟩) ∧
    (r.kind ≠ .spotify → r.kind ≠ .linux →
      (fade env st limit start step seconds force kind spotifyVolume device
        blocking).2 = .ok ⟨false, .executor⟩) := by
  by_cases hk : r.kind = .spotify
  · have hf := fade_eq_of_spotify env st limit start step seconds force kind
      spotifyVolume device blocking r hres hk hs0 hs1
    rw [hf]
    cases blocking <;> simp [hk]
  · have hf := fade_eq_of_local env st limit start step seconds force kind
      spotifyVolume device blocking r hres hk hs0 hs1 hv0 hv1
    rw [hf]
    by_cases hl : r.kind = .linux <;> cases blocking <;> simp [hk, hl]

/-- C4 witness: on a Linux host, a non-blocking fade of the composite Linux
backend returns a detached task; a blocking one awaits; a fade of the raw
ALSA backend goes to the executor with no handle. -/
theorem fade_task_dispatch_witness :
    (fade envLinuxHost stDefault 10 0 5 10 false (some .linux) 100 none
        false).2 = .ok ⟨true, .detachedTask⟩ ∧
    (fade envLinuxHost stDefault 10 0 5 10 false (some .linux) 100 none
        true).2 = .ok ⟨false, .awaited⟩ ∧
    (fade envLinuxHost stDefault 10 0 5 10 false (some .alsa) 100 none
        false).2 = .ok ⟨false, .executor⟩ :=
  ⟨(fade_task_dispatch envLinuxHost stDefault 10 0 5 10 false (some .linux)
      100 none false (.memoized .linux) rfl (by decide) (by decide)
      (by decide) (by decide)).1.mpr (by decide),
   (fade_task_dispatch envLinuxHost stDefault 10 0 5 10 false (some .linux)
      100 none true (.memoized .linux) rfl (by decide) (by decide)
      (by decide) (by decide)).2.1 (by decide) rfl,
   (fade_task_dispatch envLinuxHost stDefault 10 0 5 10 false (some .alsa)
      100 none false (.memoized .alsa) rfl (by decide) (by decide)
      (by decide) (by decide)).2.2 (by decide) (by decide)⟩

/-- C5 counterexample: the empty string is a device different from the
session device `"deviceA"`, yet resolving the Spotify kind with it returns
the memoized session instance, not a fresh one — the fresh-instance branch
additionally requires the device argument to be truthy
(`device and device != self.device`). -/
theorem resolve_fresh_device_cex :
    "" ≠ envLinuxHost.sessionDevice ∧
    resolveBackend envLinuxHost (some .spotify) (some "") =
      .ok (some (.memoized .spotify)) := by
  constructor
  · decide
  · rfl

/-- C5 (amended): resolving the Spotify kind with a truthy device different
from the session device returns a fresh instance, distinct by identity from
the memoized one; with the session device itself, or with a falsy device
argument, it returns the memoized instance; a non-Spotify kind that is
available resolves to its memoized instance regardless of the device
argument. -/
theorem resolve_device_identity (env : Env) (k : VolumeBackend) (d : String)
    (device : Option String) :
    (d ≠ "" → d ≠ env.sessionDevice →
      resolveBackend env (some .spotify) (some d) =
        .ok (some (.freshSpotify d)) ∧
      Resolved.freshSpotify d ≠ .memoized .spotify) ∧
    (resolveBackend env (some .spotify) (some env.sessionDevice) =
      .ok (some (.memoized .spotify))) ∧
    (deviceTruthy device = false →
      resolveBackend env (some .spotify) device =
        .ok (some (.memoized .spotify))) ∧
    (k ≠ .spotify → (backendCtor env k).isSome →
      resolveBackend env (some k) device = .ok (some (.memoized k))) := by
  refine ⟨?_, ?_, ?_, ?_⟩
  · intro hne hdiff
    refine ⟨?_, by simp⟩
    have ht : deviceTruthy (some d) = true := by
      simp [deviceTruthy, hne]
    have hd : (some d : Option String) ≠ some env.sessionDevice := by
      simp [hdiff]
    simp [resolveBackend, backendCtor, asyncSpotifyCtor, ht, hd]
  · simp only [resolveBackend, backendCtor, asyncSpotifyCtor]
    rw [if_neg (fun hc => hc.2.2 rfl)]
  · intro hfalse
    simp only [resolveBackend, backendCtor, asyncSpotifyCtor]
    rw [if_neg (fun hc => by rw [hfalse] at hc; exact absurd hc.2.1 (by simp))]
  · intro hk hsome
    obtain ⟨b, hb⟩ := Option.isSome_iff_exists.mp hsome
    simp [resolveBackend, hb, hk]

/-- C5 witness: on the Linux host with session device `"deviceA"`, resolving
Spotify for `"deviceB"` yields the fresh instance, resolving Spotify for the
session device yields the memoized instance, and resolving ALSA for
`"deviceB"` yields the memoized ALSA instance. -/
theorem resolve_device_identity_witness :
    resolveBackend envLinuxHost (some .spotify) (some "deviceB") =
      .ok (some (.freshSpotify "deviceB")) ∧
    resolveBackend envLinuxHost (some .spotify)
        (some envLinuxHost.sessionDevice) =
      .ok (some (.memoized .spotify)) ∧
    resolveBackend envLinuxHost (some .alsa) (some "deviceB") =
      .ok (some (.memoized .alsa)) :=
  ⟨((resolve_device_identity envLinuxHost .alsa "deviceB"
      (some "deviceB")).1 (by decide) (by decide)).1,
   (resolve_device_identity envLinuxHost .alsa "deviceB"
      (some "deviceB")).2.1,
   (resolve_device_identity envLinuxHost .alsa "deviceB"
      (some "deviceB")).2.2.2 (by decide) (by decide)⟩

/-- C6 counterexample: in the sync wrapper, a `LinuxVolumeControl`
constructor exception on a Linux host propagates out of
`Spotify._linux_volume_control` instead of being swallowed into an absent
backend. -/
theorem wrapper_ctor_propagates_cex :
    wrapperLinuxCtor envLinuxCtorFail = .error .constructionFailure := by
  rfl

/-- C6 (amended): in the async player every exception during backend
construction is swallowed and the kind is reported absent (`None`), so
backend discovery never raises; in the sync wrapper only the platform check
guards construction, and on a matching platform a constructor exception
propagates to the caller. -/
theorem construction_failure_policy (env : Env) :
    (env.appleOk = false → asyncApplescriptCtor env = none) ∧
    (env.linuxOk = false → asyncLinuxCtor env = none) ∧
    (env.alsaOk = false → asyncAlsaCtor env = none) ∧
    (env.sysname = "Linux" → env.linuxOk = false →
      wrapperLinuxCtor env = .error .constructionFailure) ∧
    (env.sysname = "Darwin" → env.appleOk = false →
      wrapperApplescriptCtor env = .error .constructionFailure) ∧
    (env.sysname = "Linux" → env.alsaOk = false →
      wrapperAlsaCtor env = .error .constructionFailure) := by
  refine ⟨?_, ?_, ?_, ?_, ?_, ?_⟩
  · intro h
    by_cases hp : env.platform = "darwin" <;>
      simp [asyncApplescriptCtor, rawApplescriptCtor, hp, h, Except.map]
  · intro h
    by_cases hp : env.platform = "linux" <;>
      simp [asyncLinuxCtor, rawLinuxCtor, hp, h, Except.map]
  · intro h
    by_cases hp : env.platform = "linux" <;>
      simp [asyncAlsaCtor, rawAlsaCtor, hp, h, Except.map]
  · intro hp h
    simp [wrapperLinuxCtor, rawLinuxCtor, hp, h, Except.map]
  · intro hp h
    simp [wrapperApplescriptCtor, rawApplescriptCtor, hp, h, Except.map]
  · intro hp h
    simp [wrapperAlsaCtor, rawAlsaCtor, hp, h, Except.map]

/-- C6 witness: on the Linux host whose `LinuxVolumeControl` constructor
raises, the async player reports the LINUX backend absent while the sync
wrapper propagates the construction error. -/
theorem construction_failure_policy_witness :
    asyncLinuxCtor envLinuxCtorFail = none ∧
    wrapperLinuxCtor envLinuxCtorFail = .error .constructionFailure :=
  ⟨(construction_failure_policy envLinuxCtorFail).2.1 rfl,
   (construction_failure_policy envLinuxCtorFail).2.2.2.1 rfl rfl⟩

/-- Whenever `change_volume` returns a value, that value lies in `[0, 100]`:
both modelled setters succeed only on in-range values. -/
theorem change_volume_ok_in_range (env : Env) (st : VolState)
    (byAmt : Int) (toVal : Option Int) (kind : Option VolumeBackend)
    (device : Option String) (v : Int)
    (hv : (change_volume env st byAmt toVal kind device).2 = .ok v) :
    0 ≤ v ∧ v ≤ 100 := by
  unfold change_volume spotifySetVolume localSetVolume at hv
  repeat' split at hv
  all_goals try simp_all
  all_goals try (split at hv <;> simp_all)
  all_goals rename_i hcond
  all_goals split at hcond <;> simp_all

/-- C7: a `change_volume` with an explicit out-of-range `to=` target (the
`force` flag of the underlying setter unset, as in every `change_volume`
call) is rejected with the invalid-volume error and performs no write; and
whenever `change_volume` returns a value, that value lies in the closed
range `[0, 100]`. -/
theorem change_volume_range (env : Env) (st : VolState) (byAmt t : Int)
    (toVal : Option Int) (kind : Option VolumeBackend)
    (device : Option String) (r : Resolved)
    (hres : resolveBackend env kind device = .ok (some r)) :
    ((t < 0 ∨ 100 < t) →
      change_volume env st 0 (some t) kind device =
        ([], .error .invalidVolumeValue)) ∧
    (∀ v, (change_volume env st byAmt toVal kind device).2 = .ok v →
      0 ≤ v ∧ v ≤ 100) := by
  constructor
  · intro ht
    have hout : ¬(0 ≤ t ∧ t ≤ 100) := by
      rcases ht with h | h
      · exact fun hc => absurd hc.1 (not_le.mpr h)
      · exact fun hc => absurd hc.2 (not_le.mpr h)
    by_cases hk : r.kind = .spotify
    · simp [change_volume, hres, hk, spotifySetVolume, hout]
    · simp [change_volume, hres, hk, localSetVolume, hout]
  · exact fun v hv =>
      change_volume_ok_in_range env st byAmt toVal kind device v hv

/-- C7 witness: on the Linux host, `change_volume(to=150)` on the ALSA
backend is rejected with the invalid-volume error and no write, and the
value returned by a successful `change_volume(by=+1)` on the remote backend
lies in `[0, 100]`. -/
theorem change_volume_range_witness :
    change_volume envLinuxHost stDefault 0 (some 150) (some .alsa) none =
      ([], .error .invalidVolumeValue) ∧
    (0 ≤ (41 : Int) ∧ (41 : Int) ≤ 100) :=
  ⟨(change_volume_range envLinuxHost stDefault 0 150 none (some .alsa) none
      (.memoized .alsa) rfl).1 (by decide),
   (change_volume_range envLinuxHost stDefault 1 0 none (some .spotify) none
      (.memoized .spotify) rfl).2 41 rfl⟩

/-- One unfolding step of the retry loop. -/
theorem genreRetryLoop_succ (catalog : Nat → Option String) (i fuel : Nat) :
    genreRetryLoop catalog i (fuel + 1) =
      match catalog i with
      | some p => some p
      | none => genreRetryLoop catalog (i + 1) fuel := rfl

/-- A terminating run of the retry loop exhibits a successful catalog
response. -/
theorem genreRetryLoop_some_imp (catalog : Nat → Option String) :
    ∀ fuel i p, genreRetryLoop catalog i fuel = some p →
      ∃ n, (catalog n).isSome := by
  intro fuel
  induction fuel with
  | zero => intro i p h; simp [genreRetryLoop] at h
  | succ fuel ih =>
    intro i p h
    match hc : catalog i with
    | some q => exact ⟨i, by simp [hc]⟩
    | none =>
      rw [genreRetryLoop_succ, hc] at h
      exact ih (i + 1) p h

/-- A successful catalog response at offset `d` lets the retry loop finish
within `d + 1` calls. -/
theorem genreRetryLoop_of_some (catalog : Nat → Option String) :
    ∀ d i, (catalog (i + d)).isSome →
      ∃ p, genreRetryLoop catalog i (d + 1) = some p := by
  intro d
  induction d with
  | zero =>
    intro i h
    obtain ⟨q, hq⟩ := Option.isSome_iff_exists.mp (by simpa using h)
    exact ⟨q, by rw [genreRetryLoop_succ, hq]⟩
  | succ d ih =>
    intro i h
    match hc : catalog i with
    | some q => exact ⟨q, by simp [genreRetryLoop, hc]⟩
    | none =>
      have h2 : (catalog ((i + 1) + d)).isSome := by
        have he : (i + 1) + d = i + (d + 1) := by omega
        rw [he]; exact h
      obtain ⟨p, hp⟩ := ih (i + 1) h2
      exact ⟨p, by rw [genreRetryLoop_succ, hc]; exact hp⟩

/-- C8: the genre-playlist retry loop of `play_recommended_genre` terminates
(within some finite number of calls) exactly when the catalog collaborator
eventually returns a non-empty playlist for the fixed genre/popularity pair;
when no call ever succeeds, no bound on the number of calls makes the loop
finish — the retry is unbounded. -/
theorem genre_retry_terminates (catalog : Nat → Option String) :
    (∃ fuel p, genreRetryLoop catalog 0 fuel = some p) ↔
      (∃ n, (catalog n).isSome) := by
  constructor
  · rintro ⟨fuel, p, hp⟩
    exact genreRetryLoop_some_imp catalog fuel 0 p hp
  · rintro ⟨n, hn⟩
    obtain ⟨p, hp⟩ := genreRetryLoop_of_some catalog n 0 (by simpa using hn)
    exact ⟨n + 1, p, hp⟩

/-- C9: in the sync wrapper, `change_volume` called with the LINUX backend
kind passes the backend-validity assertion (the result is not an assertion
failure) yet matches no dispatch branch: the mixer state is unchanged — no
volume write on any backend — and the returned volume is `None` rather than
a volume level. -/
theorem wrapper_change_volume_linux_noop (st : WState) (value : Int) :
    wrapperChangeVolume st value .linux = some (st, none) := by
  simp [wrapperChangeVolume]

/-- C10: the sync wrapper's `play` starts playback on the session-resolved
device id whenever that id is truthy, and only falls back to the
caller-supplied `device_id` when the session id is falsy — an explicit
`device_id` cannot override a bound session device. -/
theorem wrapper_play_device_precedence (env : Env)
    (deviceId : Option String) :
    (env.deviceId ≠ "" →
      wrapperPlayStartDevice env deviceId = some env.deviceId) ∧
    (env.deviceId = "" → wrapperPlayStartDevice env deviceId = deviceId) := by
  constructor <;> intro h <;> simp [wrapperPlayStartDevice, h]

/-- C10 witness: with a bound session device id `"id1"` the caller-supplied
id `"x"` is ignored; with a falsy session id the caller-supplied id is
used. -/
theorem wrapper_play_device_precedence_witness :
    wrapperPlayStartDevice envLinuxHost (some "x") = some "id1" ∧
    wrapperPlayStartDevice envOtherHost (some "x") = some "x" :=
  ⟨(wrapper_play_device_precedence envLinuxHost (some "x")).1 (by decide),
   (wrapper_play_device_precedence envOtherHost (some "x")).2 rfl⟩

end Spfy
